import Mathlib

/-!
Shallow embedding of the nginx-operator reconciliation core
(`pkg/stub/handler.go`): the event dispatcher `Handle`, the
dependent-resource reconcilers `reconcileDeployment` / `reconcileService`,
and the status reconciler `refreshStatus`.

The operator-sdk store primitives (`sdk.Create`, `sdk.Get`, `sdk.Update`,
`sdk.List`) are an external collaborator; they are modelled as a record of
state-transforming operations `SDK σ` over an abstract store state `σ`.
Each embedded function threads the store state, records the store calls it
issues (`Call`) and the log lines it emits, exactly following the Go
control flow.

Go slices distinguish a nil slice from a non-nil empty slice, and
`reflect.DeepEqual` observes that distinction; `GoSlice` keeps an explicit
`isNil` flag to model it.  `sort.Slice` with the strict comparison
`pods[i].Name < pods[j].Name` produces a list that is nondecreasing in
`Name`; it is modelled with `List.insertionSort` under `Name ≤ Name`
(Go's sort is unstable, so any ≤-sorted permutation is a faithful model).
-/

/-- A Go `error` value as the handler observes it: either an error for
which `errors.IsAlreadyExists` returns true, or any other error carrying
its message. -/
inductive GoError where
  | alreadyExists : GoError
  | other : String → GoError
deriving DecidableEq, Repr

/-- The message produced by formatting a Go error with `%v`. -/
def errMsg : GoError → String
  | GoError.alreadyExists => "already exists"
  | GoError.other m => m

/-- `errors.IsAlreadyExists` applied to a possibly-nil error
(`none` models a nil error). -/
def isAlreadyExists : Option GoError → Bool
  | some GoError.alreadyExists => true
  | _ => false

/-- `v1alpha1.NginxPod`: one entry of the status pod list. -/
structure NginxPod where
  name : String
  podIP : String
deriving DecidableEq, Repr

/-- A Go slice: `isNil` distinguishes a nil slice from a non-nil empty
slice, which `reflect.DeepEqual` treats as unequal. -/
structure GoSlice (α : Type) where
  isNil : Bool
  elems : List α
deriving DecidableEq, Repr

/-- The nil slice (`var pods []v1alpha1.NginxPod`). -/
def GoSlice.nilSlice {α : Type} : GoSlice α := ⟨true, []⟩

/-- Go `append(s, x)`: the result is always non-nil. -/
def GoSlice.push {α : Type} (s : GoSlice α) (x : α) : GoSlice α :=
  ⟨false, s.elems ++ [x]⟩

/-- The `v1alpha1.Nginx` custom resource as the handler uses it:
identity plus the status pod list (the spec fields are opaque to the
core). -/
structure Nginx where
  name : String
  ns : String
  statusPods : GoSlice NginxPod
deriving DecidableEq, Repr

/-- A live pod as returned by `sdk.List`: the handler projects
`p.Name` and `p.Status.PodIP`. -/
structure Pod where
  name : String
  podIP : String
deriving DecidableEq, Repr

/-- The object carried by an `sdk.Event`: the type switch in `Handle`
matches `*v1alpha1.Nginx` and ignores every other kind. -/
inductive EventObject where
  | nginx : Nginx → EventObject
  | otherKind : EventObject
deriving DecidableEq, Repr

/-- `sdk.Event`: the notification consumed by `Handle`. -/
structure Event where
  object : EventObject
  deleted : Bool
deriving DecidableEq, Repr

/-- The store calls the handler can issue, recorded as a trace. -/
inductive Call where
  | createDeployment : Call
  | getDeployment : Call
  | updateDeployment : Call
  | createService : Call
  | listPods : Call
  | updateNginx : Call
deriving DecidableEq, Repr

/-- The operator-sdk store primitives, abstracted over a store state `σ`.
`createDeployment`/`createService` take the Nginx resource because the Go
code builds the desired object from it via the pure builders
`k8s.NewDeployment` / `k8s.NewService` (external Desired-State Builder)
before calling `sdk.Create`.  `listPods` takes the namespace and the label
selector string passed to `sdk.List`.  A `none` first component models a
nil error. -/
structure SDK (σ : Type) where
  createDeployment : Nginx → σ → Option GoError × σ
  getDeployment : Nginx → σ → Option GoError × σ
  updateDeployment : Nginx → σ → Option GoError × σ
  createService : Nginx → σ → Option GoError × σ
  listPods : String → String → σ → Except GoError (List Pod) × σ
  updateNginx : Nginx → σ → Option GoError × σ

/-- Modelled from the spec: `k8s.LabelsForNginx` (package `pkg/stub/k8s`,
not under `src/`) composed with `labels.SelectorFromSet(...).String()` —
a deterministic, pure mapping from the instance name to a label selector
string (spec §4.3 step 2 and §6, "Derived label selector"). -/
def labelsForNginx (name : String) : String :=
  "nginx_cr=" ++ name

/-- Result of a dependent-resource reconciliation step: the returned
error (if any), the final store state, the store calls issued and the log
lines emitted, in order. -/
structure RecResult (σ : Type) where
  result : Except GoError Unit
  store : σ
  calls : List Call
  logs : List String

/-- `reconcileDeployment`: create the desired Deployment; a non-nil error
other than already-exists is logged and returned; a nil error is success;
on already-exists the existing Deployment is fetched with `sdk.Get` (a
failure is logged and returned); then `changed` is always false (the
field diff is not implemented), so the `sdk.Update` branch is dead code. -/
def reconcileDeployment {σ : Type} (sdk : SDK σ) (nginx : Nginx) (s : σ) :
    RecResult σ :=
  match sdk.createDeployment nginx s with
  | (none, s₁) => ⟨Except.ok (), s₁, [Call.createDeployment], []⟩
  | (some e, s₁) =>
    if isAlreadyExists (some e) then
      match sdk.getDeployment nginx s₁ with
      | (some ge, s₂) =>
        ⟨Except.error ge, s₂, [Call.createDeployment, Call.getDeployment],
          ["Failed to retrieve deployment: " ++ errMsg ge]⟩
      | (none, s₂) =>
        let changed := false
        if changed then
          match sdk.updateDeployment nginx s₂ with
          | (some ue, s₃) =>
            ⟨Except.error ue, s₃,
              [Call.createDeployment, Call.getDeployment, Call.updateDeployment],
              ["Failed to update deployment: " ++ errMsg ue]⟩
          | (none, s₃) =>
            ⟨Except.ok (), s₃,
              [Call.createDeployment, Call.getDeployment, Call.updateDeployment], []⟩
        else
          ⟨Except.ok (), s₂, [Call.createDeployment, Call.getDeployment],
            ["nothing changed"]⟩
    else
      ⟨Except.error e, s₁, [Call.createDeployment],
        ["Failed to create deployment: " ++ errMsg e]⟩

/-- `reconcileService`: create the desired Service; already-exists is
full success; any other non-nil error is logged and returned. -/
def reconcileService {σ : Type} (sdk : SDK σ) (nginx : Nginx) (s : σ) :
    RecResult σ :=
  match sdk.createService nginx s with
  | (err, s₁) =>
    if isAlreadyExists err then
      ⟨Except.ok (), s₁, [Call.createService], []⟩
    else
      match err with
      | some e =>
        ⟨Except.error e, s₁, [Call.createService],
          ["Failed to create service: " ++ errMsg e]⟩
      | none => ⟨Except.ok (), s₁, [Call.createService], []⟩

/-- `reconcile`: on a deletion notification do nothing (garbage
collection of dependents is delegated via owner references); otherwise
reconcile the Deployment, then, on success, the Service. -/
def reconcile {σ : Type} (sdk : SDK σ) (event : Event) (nginx : Nginx)
    (s : σ) : RecResult σ :=
  if event.deleted then
    ⟨Except.ok (), s, [], ["object deleted"]⟩
  else
    let rd := reconcileDeployment sdk nginx s
    match rd.result with
    | Except.error _ => rd
    | Except.ok _ =>
      let rs := reconcileService sdk nginx rd.store
      ⟨rs.result, rs.store, rd.calls ++ rs.calls, rd.logs ++ rs.logs⟩

/-- The sort performed by `sort.Slice(pods, func(i, j) { ... Name < ... })`:
a permutation nondecreasing in `Name`. -/
def sortPods (l : List NginxPod) : List NginxPod :=
  List.insertionSort (fun a b => a.name ≤ b.name) l

/-- `sort.Slice` on a Go slice: sorts the elements in place; the nil flag
is unchanged. -/
def GoSlice.sortByName (s : GoSlice NginxPod) : GoSlice NginxPod :=
  ⟨s.isNil, sortPods s.elems⟩

/-- `reflect.DeepEqual` on two `[]v1alpha1.NginxPod` values: equal nil
flags and structurally equal elements. -/
def deepEqual (a b : GoSlice NginxPod) : Bool :=
  decide (a.isNil = b.isNil ∧ a.elems = b.elems)

/-- The loop `for _, p := range podList.Items { pods = append(pods, ...) }`
starting from the nil slice `var pods []v1alpha1.NginxPod`. -/
def buildPods (items : List Pod) : GoSlice NginxPod :=
  items.foldl (fun acc p => acc.push ⟨p.name, p.podIP⟩) GoSlice.nilSlice

/-- Result of `refreshStatus`: the returned error (if any), the
(possibly mutated) in-memory Nginx object, the final store state, the
store calls issued and the log lines emitted. -/
structure StatusResult (σ : Type) where
  result : Except GoError Unit
  nginx : Nginx
  store : σ
  calls : List Call
  logs : List String

/-- `refreshStatus`: skip on deletion; list the pods matching the derived
selector (a failure is wrapped with "failed to list pods:"); project each
pod to Name/PodIP; sort both the observed list and the stored status list
in place by Name; if `reflect.DeepEqual` finds them different, replace the
stored list with the observed one and call `sdk.Update` (a failure is
wrapped with "failed to update nginx status:"). -/
def refreshStatus {σ : Type} (sdk : SDK σ) (event : Event) (nginx : Nginx)
    (s : σ) : StatusResult σ :=
  if event.deleted then
    ⟨Except.ok (), nginx, s, [], ["nginx deleted, skipping status update"]⟩
  else
    let labelSelector := labelsForNginx nginx.name
    match sdk.listPods nginx.ns labelSelector s with
    | (Except.error e, s₁) =>
      ⟨Except.error (GoError.other ("failed to list pods: " ++ errMsg e)),
        nginx, s₁, [Call.listPods], []⟩
    | (Except.ok items, s₁) =>
      let pods := (buildPods items).sortByName
      let nginx₁ := { nginx with statusPods := nginx.statusPods.sortByName }
      if !(deepEqual pods nginx₁.statusPods) then
        let nginx₂ := { nginx₁ with statusPods := pods }
        match sdk.updateNginx nginx₂ s₁ with
        | (some ue, s₂) =>
          ⟨Except.error
              (GoError.other ("failed to update nginx status: " ++ errMsg ue)),
            nginx₂, s₂, [Call.listPods, Call.updateNginx], []⟩
        | (none, s₂) =>
          ⟨Except.ok (), nginx₂, s₂, [Call.listPods, Call.updateNginx], []⟩
      else
        ⟨Except.ok (), nginx₁, s₁, [Call.listPods], []⟩

/-- Result of `Handle`: overall error, the (possibly mutated) event
object, the final store state, calls and logs. -/
structure HandleResult (σ : Type) where
  result : Except GoError Unit
  object : EventObject
  store : σ
  calls : List Call
  logs : List String

/-- `Handler.Handle`: switch on the event object; for an Nginx object run
`reconcile` and, only if it succeeds, `refreshStatus`, returning the first
error; every other object kind is ignored (success, no calls). -/
def Handle {σ : Type} (sdk : SDK σ) (event : Event) (s : σ) :
    HandleResult σ :=
  match event.object with
  | EventObject.nginx o =>
    let logs₀ := ["Handling event for object"]
    let r₁ := reconcile sdk event o s
    match r₁.result with
    | Except.error e =>
      ⟨Except.error e, EventObject.nginx o, r₁.store, r₁.calls,
        logs₀ ++ r₁.logs⟩
    | Except.ok _ =>
      let r₂ := refreshStatus sdk event o r₁.store
      ⟨r₂.result, EventObject.nginx r₂.nginx, r₂.store,
        r₁.calls ++ r₂.calls, logs₀ ++ r₁.logs ++ r₂.logs⟩
  | EventObject.otherKind => ⟨Except.ok (), event.object, s, [], []⟩

/-- Modelled from the spec: the Resource Client capability contract
(spec §6): `Create` succeeds iff the object is absent and otherwise
reports AlreadyExists; `Get` succeeds iff the object is present; `List`
returns the (here empty) matching collection; `Update` succeeds.  The
cluster-visible object set is which of the two dependents exist. -/
structure Cluster where
  hasDeployment : Bool
  hasService : Bool
deriving DecidableEq, Repr

/-- The well-behaved store used to state idempotence over the
cluster-visible object set. -/
def goodStore : SDK Cluster where
  createDeployment := fun _ s =>
    if s.hasDeployment then (some GoError.alreadyExists, s)
    else (none, { s with hasDeployment := true })
  getDeployment := fun _ s =>
    if s.hasDeployment then (none, s) else (some (GoError.other "not found"), s)
  updateDeployment := fun _ s => (none, s)
  createService := fun _ s =>
    if s.hasService then (some GoError.alreadyExists, s)
    else (none, { s with hasService := true })
  listPods := fun _ _ s => (Except.ok [], s)
  updateNginx := fun _ s => (none, s)

/-- Sortedness of a status pod list by `Name`. -/
def sortedByName (l : List NginxPod) : Prop :=
  l.Pairwise (fun a b => a.name ≤ b.name)

instance (l : List NginxPod) : Decidable (sortedByName l) := by
  unfold sortedByName
  exact List.instDecidablePairwise l

/-- A concrete Nginx resource used to instantiate theorems. -/
def nginxW : Nginx := ⟨"my-nginx", "default", GoSlice.nilSlice⟩

/-- A concrete Nginx resource whose stored status list is empty but
non-nil. -/
def nginxEmptyStatus : Nginx := ⟨"my-nginx", "default", ⟨false, []⟩⟩

/-- A cluster state in which both dependents already exist. -/
def clusterFull : Cluster := ⟨true, true⟩

/-- A non-deletion notification for `nginxW`. -/
def evW : Event := ⟨EventObject.nginx nginxW, false⟩

/-- A store in which every operation fails with an opaque error, used to
instantiate the error-propagation theorems. -/
def errStore : SDK Cluster where
  createDeployment := fun _ s => (some (GoError.other "boom"), s)
  getDeployment := fun _ s => (some (GoError.other "boom"), s)
  updateDeployment := fun _ s => (some (GoError.other "boom"), s)
  createService := fun _ s => (some (GoError.other "boom"), s)
  listPods := fun _ _ s => (Except.error (GoError.other "boom"), s)
  updateNginx := fun _ s => (some (GoError.other "boom"), s)

/-- The modelled `sort.Slice` output is nondecreasing in `Name`. -/
theorem sortPods_sorted (l : List NginxPod) : sortedByName (sortPods l) := by
  haveI ht : IsTotal NginxPod (fun a b => a.name ≤ b.name) :=
    ⟨fun a b => le_total a.name b.name⟩
  haveI htr : IsTrans NginxPod (fun a b => a.name ≤ b.name) :=
    ⟨fun a b c hab hbc => le_trans hab hbc⟩
  exact List.sorted_insertionSort (fun a b => a.name ≤ b.name) l

/-- The modelled `reflect.DeepEqual` is structural equality of slices. -/
theorem deepEqual_iff (a b : GoSlice NginxPod) : deepEqual a b = true ↔ a = b := by
  cases a
  cases b
  simp [deepEqual, GoSlice.mk.injEq]

/-- An error other than already-exists fails the `errors.IsAlreadyExists`
test. -/
theorem isAlreadyExists_eq_false {e : GoError} (h : e ≠ GoError.alreadyExists) :
    isAlreadyExists (some e) = false := by
  cases e
  · exact absurd rfl h
  · rfl

/-- `reconcileService` issues exactly one store call: the create. -/
theorem reconcileService_calls {σ : Type} (sdk : SDK σ) (n : Nginx) (s : σ) :
    (reconcileService sdk n s).calls = [Call.createService] := by
  unfold reconcileService
  rcases sdk.createService n s with ⟨oc, s₁⟩
  rcases oc with _ | e
  · rfl
  · cases e <;> rfl

/-- `reconcileDeployment` issues the create, possibly followed by the
get; the update is never issued. -/
theorem reconcileDeployment_calls {σ : Type} (sdk : SDK σ) (n : Nginx) (s : σ) :
    (reconcileDeployment sdk n s).calls = [Call.createDeployment]
    ∨ (reconcileDeployment sdk n s).calls
        = [Call.createDeployment, Call.getDeployment] := by
  unfold reconcileDeployment
  rcases sdk.createDeployment n s with ⟨oc, s₁⟩
  rcases oc with _ | e
  · simp
  · cases e
    · rcases hg : sdk.getDeployment n s₁ with ⟨og, s₂⟩
      rcases og with _ | ge <;> simp [isAlreadyExists, hg]
    · simp [isAlreadyExists]

/-- The dependent-resource reconciliation never lists pods. -/
theorem reconcile_no_listPods {σ : Type} (sdk : SDK σ) (ev : Event) (n : Nginx)
    (s : σ) : Call.listPods ∉ (reconcile sdk ev n s).calls := by
  unfold reconcile
  split
  · simp
  · rcases hr : (reconcileDeployment sdk n s).result with e | u
    · simp only [hr]
      rcases reconcileDeployment_calls sdk n s with h | h <;> simp [h]
    · simp only [hr]
      rcases reconcileDeployment_calls sdk n s with h | h <;>
        simp [h, reconcileService_calls]

/-- The modelled `reflect.DeepEqual` is reflexive. -/
theorem deepEqual_refl (a : GoSlice NginxPod) : deepEqual a a = true :=
  (deepEqual_iff a a).mpr rfl

/-- C2: a notification with Deleted true for an Nginx object makes
`Handle` return success, issue no store call at all (no create, update,
get or list) and leave the store untouched: `reconcile` returns
immediately and `refreshStatus` skips before listing pods. -/
theorem handle_deleted_noop {σ : Type} (sdk : SDK σ) (n : Nginx) (s : σ) :
    (Handle sdk ⟨EventObject.nginx n, true⟩ s).result = Except.ok ()
    ∧ (Handle sdk ⟨EventObject.nginx n, true⟩ s).calls = []
    ∧ (Handle sdk ⟨EventObject.nginx n, true⟩ s).store = s := by
  simp [Handle, reconcile, refreshStatus]

/-- C4: when the Deployment create fails with already-exists, the
existing Deployment is fetched via Get, the result is the Get outcome
(a Get failure is returned to the caller, a Get success yields overall
success), and no Update call is issued: `changed` is never set, so the
update branch is unreachable. -/
theorem reconcileDeployment_no_update {σ : Type} (sdk : SDK σ) (n : Nginx)
    (s s₁ : σ)
    (hc : sdk.createDeployment n s = (some GoError.alreadyExists, s₁)) :
    (reconcileDeployment sdk n s).calls
        = [Call.createDeployment, Call.getDeployment]
    ∧ Call.updateDeployment ∉ (reconcileDeployment sdk n s).calls
    ∧ (reconcileDeployment sdk n s).result
        = (match (sdk.getDeployment n s₁).1 with
           | none => Except.ok ()
           | some ge => Except.error ge) := by
  rcases hg : sdk.getDeployment n s₁ with ⟨og, s₂⟩
  rcases og with _ | ge <;> simp [reconcileDeployment, hc, hg, isAlreadyExists]

/-- Witness for C4 at a concrete store where the Deployment already
exists. -/
theorem reconcileDeployment_no_update_witness :
    (reconcileDeployment goodStore nginxW clusterFull).calls
        = [Call.createDeployment, Call.getDeployment]
    ∧ Call.updateDeployment ∉ (reconcileDeployment goodStore nginxW clusterFull).calls
    ∧ (reconcileDeployment goodStore nginxW clusterFull).result
        = (match (goodStore.getDeployment nginxW clusterFull).1 with
           | none => Except.ok ()
           | some ge => Except.error ge) :=
  reconcileDeployment_no_update goodStore nginxW clusterFull clusterFull rfl

/-- C5: when the Service create fails with already-exists,
`reconcileService` returns success immediately, having issued only the
create call (no Get, no Update) and leaving the store as the create left
it. -/
theorem reconcileService_alreadyExists_ok {σ : Type} (sdk : SDK σ) (n : Nginx)
    (s s₁ : σ)
    (hc : sdk.createService n s = (some GoError.alreadyExists, s₁)) :
    (reconcileService sdk n s).result = Except.ok ()
    ∧ (reconcileService sdk n s).calls = [Call.createService]
    ∧ (reconcileService sdk n s).store = s₁ := by
  simp [reconcileService, hc, isAlreadyExists]

/-- Witness for C5 at a concrete store where the Service already
exists. -/
theorem reconcileService_alreadyExists_ok_witness :
    (reconcileService goodStore nginxW clusterFull).result = Except.ok ()
    ∧ (reconcileService goodStore nginxW clusterFull).calls = [Call.createService]
    ∧ (reconcileService goodStore nginxW clusterFull).store = clusterFull :=
  reconcileService_alreadyExists_ok goodStore nginxW clusterFull clusterFull rfl

/-- C7: when the pod List call fails, `refreshStatus` returns an error
whose message is the context "failed to list pods" followed by the
underlying cause, the in-memory Nginx object is unchanged, and no status
write happens (the only store call is the list). -/
theorem refreshStatus_list_failure {σ : Type} (sdk : SDK σ) (e : Event)
    (n : Nginx) (s s₁ : σ) (err : GoError)
    (hdel : e.deleted = false)
    (hlist : sdk.listPods n.ns (labelsForNginx n.name) s
        = (Except.error err, s₁)) :
    (refreshStatus sdk e n s).result
        = Except.error (GoError.other ("failed to list pods: " ++ errMsg err))
    ∧ (refreshStatus sdk e n s).nginx = n
    ∧ (refreshStatus sdk e n s).calls = [Call.listPods] := by
  simp [refreshStatus, hdel, hlist]

/-- Witness for C7 at a concrete store whose pod list fails. -/
theorem refreshStatus_list_failure_witness :
    (refreshStatus errStore evW nginxW clusterFull).result
        = Except.error
            (GoError.other ("failed to list pods: " ++ errMsg (GoError.other "boom")))
    ∧ (refreshStatus errStore evW nginxW clusterFull).nginx = nginxW
    ∧ (refreshStatus errStore evW nginxW clusterFull).calls = [Call.listPods] :=
  refreshStatus_list_failure errStore evW nginxW clusterFull clusterFull
    (GoError.other "boom") rfl rfl

/-- C8: any create or get failure other than already-exists in the
dependent-resource reconciliation is returned to the caller verbatim,
and the log line emitted alongside names the dependent kind and carries
the cause. -/
theorem reconcile_error_tagged {σ : Type} (sdk : SDK σ) (n : Nginx) (s : σ)
    (e : GoError) (hne : e ≠ GoError.alreadyExists) :
    ((sdk.createDeployment n s).1 = some e →
      (reconcileDeployment sdk n s).result = Except.error e
      ∧ (reconcileDeployment sdk n s).logs
          = ["Failed to create deployment: " ++ errMsg e])
    ∧ ((sdk.createDeployment n s).1 = some GoError.alreadyExists →
       (sdk.getDeployment n (sdk.createDeployment n s).2).1 = some e →
      (reconcileDeployment sdk n s).result = Except.error e
      ∧ (reconcileDeployment sdk n s).logs
          = ["Failed to retrieve deployment: " ++ errMsg e])
    ∧ ((sdk.createService n s).1 = some e →
      (reconcileService sdk n s).result = Except.error e
      ∧ (reconcileService sdk n s).logs
          = ["Failed to create service: " ++ errMsg e]) := by
  rcases hcd : sdk.createDeployment n s with ⟨oc, s₁⟩
  rcases hcs : sdk.createService n s with ⟨os, t₁⟩
  refine ⟨?_, ?_, ?_⟩
  · intro h
    simp only at h
    subst h
    simp [reconcileDeployment, hcd, isAlreadyExists_eq_false hne]
  · intro h hg
    simp only at h
    subst h
    simp only [hcd] at hg
    rcases hgd : sdk.getDeployment n s₁ with ⟨og, s₂⟩
    simp only [hgd] at hg
    subst hg
    simp [reconcileDeployment, hcd, hgd, isAlreadyExists]
  · intro h
    simp only at h
    subst h
    simp [reconcileService, hcs, isAlreadyExists_eq_false hne]

/-- Witness for C8 at a concrete store whose creates fail with an opaque
error. -/
theorem reconcile_error_tagged_witness :
    ((errStore.createDeployment nginxW clusterFull).1
        = some (GoError.other "boom") →
      (reconcileDeployment errStore nginxW clusterFull).result
          = Except.error (GoError.other "boom")
      ∧ (reconcileDeployment errStore nginxW clusterFull).logs
          = ["Failed to create deployment: " ++ errMsg (GoError.other "boom")])
    ∧ ((errStore.createDeployment nginxW clusterFull).1
        = some GoError.alreadyExists →
       (errStore.getDeployment nginxW
          (errStore.createDeployment nginxW clusterFull).2).1
          = some (GoError.other "boom") →
      (reconcileDeployment errStore nginxW clusterFull).result
          = Except.error (GoError.other "boom")
      ∧ (reconcileDeployment errStore nginxW clusterFull).logs
          = ["Failed to retrieve deployment: " ++ errMsg (GoError.other "boom")])
    ∧ ((errStore.createService nginxW clusterFull).1
        = some (GoError.other "boom") →
      (reconcileService errStore nginxW clusterFull).result
          = Except.error (GoError.other "boom")
      ∧ (reconcileService errStore nginxW clusterFull).logs
          = ["Failed to create service: " ++ errMsg (GoError.other "boom")]) :=
  reconcile_error_tagged errStore nginxW clusterFull (GoError.other "boom")
    (by simp)

/-- C3: on a non-deletion notification for an Nginx object, `Handle`
runs the dependent-resource reconciliation first; if it fails, `Handle`
returns that error verbatim, performs only the reconciliation's calls and
never reaches the status refresh (no pod list call); if it succeeds,
`Handle` returns the status refresh's result and performs the
reconciliation's calls followed by the refresh's calls. -/
theorem handle_sequencing {σ : Type} (sdk : SDK σ) (e : Event) (n : Nginx)
    (s : σ) (hobj : e.object = EventObject.nginx n)
    (hdel : e.deleted = false) :
    ((reconcile sdk e n s).result = Except.ok () →
      (Handle sdk e s).result
          = (refreshStatus sdk e n (reconcile sdk e n s).store).result
      ∧ (Handle sdk e s).calls
          = (reconcile sdk e n s).calls
            ++ (refreshStatus sdk e n (reconcile sdk e n s).store).calls)
    ∧ ((reconcile sdk e n s).result ≠ Except.ok () →
      (Handle sdk e s).result = (reconcile sdk e n s).result
      ∧ (Handle sdk e s).calls = (reconcile sdk e n s).calls
      ∧ Call.listPods ∉ (Handle sdk e s).calls) := by
  constructor
  · intro hok
    rcases hr : (reconcile sdk e n s).result with re | ru
    · rw [hr] at hok
      exact absurd hok (by simp)
    · simp [Handle, hobj, hr]
  · intro hbad
    rcases hr : (reconcile sdk e n s).result with re | ru
    · refine ⟨?_, ?_, ?_⟩ <;>
        simp [Handle, hobj, hr, reconcile_no_listPods]
    · rw [hr] at hbad
      exact absurd rfl hbad

/-- Witness for C3 at a concrete store (reconciliation succeeds and the
refresh branch is exercised). -/
theorem handle_sequencing_witness :
    ((reconcile goodStore evW nginxW clusterFull).result = Except.ok () →
      (Handle goodStore evW clusterFull).result
          = (refreshStatus goodStore evW nginxW
              (reconcile goodStore evW nginxW clusterFull).store).result
      ∧ (Handle goodStore evW clusterFull).calls
          = (reconcile goodStore evW nginxW clusterFull).calls
            ++ (refreshStatus goodStore evW nginxW
                (reconcile goodStore evW nginxW clusterFull).store).calls)
    ∧ ((reconcile goodStore evW nginxW clusterFull).result ≠ Except.ok () →
      (Handle goodStore evW clusterFull).result
          = (reconcile goodStore evW nginxW clusterFull).result
      ∧ (Handle goodStore evW clusterFull).calls
          = (reconcile goodStore evW nginxW clusterFull).calls
      ∧ Call.listPods ∉ (Handle goodStore evW clusterFull).calls) :=
  handle_sequencing goodStore evW nginxW clusterFull rfl rfl

/-- C6: against the well-behaved store, running the dependent-resource
reconciliation twice in a row with the same desired state, the second run
succeeds, leaves the cluster-visible object set exactly as the first run
left it, and its create attempts (which now report already-exists) are
still issued and tolerated. -/
theorem reconcile_idempotent (e : Event) (n : Nginx) (s₀ : Cluster)
    (hdel : e.deleted = false)
    (h1 : (reconcile goodStore e n s₀).result = Except.ok ()) :
    (reconcile goodStore e n (reconcile goodStore e n s₀).store).result
        = Except.ok ()
    ∧ (reconcile goodStore e n (reconcile goodStore e n s₀).store).store
        = (reconcile goodStore e n s₀).store
    ∧ Call.createDeployment
        ∈ (reconcile goodStore e n (reconcile goodStore e n s₀).store).calls
    ∧ Call.createService
        ∈ (reconcile goodStore e n (reconcile goodStore e n s₀).store).calls := by
  rcases s₀ with ⟨hd, hs⟩
  cases hd <;> cases hs <;>
    simp [reconcile, hdel, reconcileDeployment, reconcileService, goodStore,
      isAlreadyExists]

/-- Witness for C6 starting from the empty cluster. -/
theorem reconcile_idempotent_witness :
    (reconcile goodStore evW nginxW
        (reconcile goodStore evW nginxW ⟨false, false⟩).store).result
        = Except.ok ()
    ∧ (reconcile goodStore evW nginxW
        (reconcile goodStore evW nginxW ⟨false, false⟩).store).store
        = (reconcile goodStore evW nginxW ⟨false, false⟩).store
    ∧ Call.createDeployment
        ∈ (reconcile goodStore evW nginxW
            (reconcile goodStore evW nginxW ⟨false, false⟩).store).calls
    ∧ Call.createService
        ∈ (reconcile goodStore evW nginxW
            (reconcile goodStore evW nginxW ⟨false, false⟩).store).calls :=
  reconcile_idempotent evW nginxW ⟨false, false⟩ rfl rfl

/-- C1: on a status refresh whose pod list succeeds, the status write is
issued if and only if the sorted observed list differs from the sorted
stored list; on equality no write happens and the result is success with
only the in-place sort of the stored list; on difference the stored list
is replaced by the sorted observed list; and the observed list (the only
list ever written) is sorted by Name. -/
theorem refreshStatus_write_iff {σ : Type} (sdk : SDK σ) (e : Event)
    (n : Nginx) (s s₁ : σ) (items : List Pod)
    (hdel : e.deleted = false)
    (hlist : sdk.listPods n.ns (labelsForNginx n.name) s
        = (Except.ok items, s₁)) :
    (Call.updateNginx ∈ (refreshStatus sdk e n s).calls
       ↔ (buildPods items).sortByName ≠ n.statusPods.sortByName)
    ∧ ((buildPods items).sortByName = n.statusPods.sortByName →
        (refreshStatus sdk e n s).calls = [Call.listPods]
        ∧ (refreshStatus sdk e n s).result = Except.ok ()
        ∧ (refreshStatus sdk e n s).nginx
            = { n with statusPods := n.statusPods.sortByName })
    ∧ ((buildPods items).sortByName ≠ n.statusPods.sortByName →
        (refreshStatus sdk e n s).nginx.statusPods
            = (buildPods items).sortByName
        ∧ Call.updateNginx ∈ (refreshStatus sdk e n s).calls)
    ∧ sortedByName ((buildPods items).sortByName).elems := by
  have hsorted : sortedByName ((buildPods items).sortByName).elems :=
    sortPods_sorted _
  cases hde : deepEqual ((buildPods items).sortByName) (n.statusPods.sortByName)
  · have hne : (buildPods items).sortByName ≠ n.statusPods.sortByName := by
      intro h
      rw [(deepEqual_iff _ _).mpr h] at hde
      cases hde
    rcases hu : sdk.updateNginx { n with statusPods := (buildPods items).sortByName } s₁
      with ⟨ou, s₂⟩
    rcases ou with _ | ue <;>
      refine ⟨?_, ?_, ?_, hsorted⟩ <;>
        simp [refreshStatus, hdel, hlist, hde, hne, hu]
  · have heq := (deepEqual_iff _ _).mp hde
    refine ⟨?_, ?_, ?_, hsorted⟩ <;>
      simp [refreshStatus, hdel, hlist, hde, heq, deepEqual_refl]

/-- Witness for C1 at a concrete store returning no pods against an
Nginx whose stored status is the nil list (equal after sorting, so no
write). -/
theorem refreshStatus_write_iff_witness :
    (Call.updateNginx ∈ (refreshStatus goodStore evW nginxW clusterFull).calls
       ↔ (buildPods []).sortByName ≠ nginxW.statusPods.sortByName)
    ∧ ((buildPods []).sortByName = nginxW.statusPods.sortByName →
        (refreshStatus goodStore evW nginxW clusterFull).calls = [Call.listPods]
        ∧ (refreshStatus goodStore evW nginxW clusterFull).result = Except.ok ()
        ∧ (refreshStatus goodStore evW nginxW clusterFull).nginx
            = { nginxW with statusPods := nginxW.statusPods.sortByName })
    ∧ ((buildPods []).sortByName ≠ nginxW.statusPods.sortByName →
        (refreshStatus goodStore evW nginxW clusterFull).nginx.statusPods
            = (buildPods []).sortByName
        ∧ Call.updateNginx ∈ (refreshStatus goodStore evW nginxW clusterFull).calls)
    ∧ sortedByName ((buildPods []).sortByName).elems :=
  refreshStatus_write_iff goodStore evW nginxW clusterFull clusterFull [] rfl rfl

/-- C9: when the pod list succeeds with zero pods, the freshly built
observed list is the nil slice (nothing is ever appended), the deep
comparison distinguishes it from an empty non-nil stored list, and so for
a stored status list that is empty but non-nil the refresh issues a
status write replacing it with the nil list even though both lists hold
no elements. -/
theorem refreshStatus_nil_vs_empty {σ : Type} (sdk : SDK σ) (e : Event)
    (n : Nginx) (s s₁ : σ)
    (hdel : e.deleted = false)
    (hstatus : n.statusPods = ⟨false, []⟩)
    (hlist : sdk.listPods n.ns (labelsForNginx n.name) s
        = (Except.ok [], s₁)) :
    buildPods [] = GoSlice.nilSlice
    ∧ deepEqual GoSlice.nilSlice ⟨false, []⟩ = false
    ∧ Call.updateNginx ∈ (refreshStatus sdk e n s).calls
    ∧ (refreshStatus sdk e n s).nginx.statusPods = GoSlice.nilSlice := by
  refine ⟨rfl, by decide, ?_, ?_⟩ <;>
  · rcases hu : sdk.updateNginx { n with statusPods := (⟨true, []⟩ : GoSlice NginxPod) } s₁
      with ⟨ou, s₂⟩
    rcases ou with _ | ue <;>
      simp [refreshStatus, hdel, hlist, hstatus, hu, GoSlice.sortByName,
        sortPods, deepEqual, buildPods, GoSlice.nilSlice]

/-- Witness for C9 at a concrete store returning no pods against an
Nginx whose stored status list is empty but non-nil. -/
theorem refreshStatus_nil_vs_empty_witness :
    buildPods [] = GoSlice.nilSlice
    ∧ deepEqual GoSlice.nilSlice ⟨false, []⟩ = false
    ∧ Call.updateNginx
        ∈ (refreshStatus goodStore evW nginxEmptyStatus clusterFull).calls
    ∧ (refreshStatus goodStore evW nginxEmptyStatus clusterFull).nginx.statusPods
        = GoSlice.nilSlice :=
  refreshStatus_nil_vs_empty goodStore evW nginxEmptyStatus clusterFull
    clusterFull rfl rfl rfl

/-- C10: every successful status refresh on a non-deletion notification
leaves the in-memory status pod list sorted by Name, also when no
cluster write occurred: the stored list itself is sorted before the
comparison. -/
theorem refreshStatus_sorted_invariant {σ : Type} (sdk : SDK σ) (e : Event)
    (n : Nginx) (s : σ)
    (hdel : e.deleted = false)
    (hok : (refreshStatus sdk e n s).result = Except.ok ()) :
    sortedByName (refreshStatus sdk e n s).nginx.statusPods.elems := by
  rcases hl : sdk.listPods n.ns (labelsForNginx n.name) s with ⟨lr, s₁⟩
  rcases lr with le | items
  · exact absurd hok (by simp [refreshStatus, hdel, hl])
  · cases hde : deepEqual ((buildPods items).sortByName) (n.statusPods.sortByName)
    · rcases hu : sdk.updateNginx
          { n with statusPods := (buildPods items).sortByName } s₁
        with ⟨ou, s₂⟩
      rcases ou with _ | ue
      · have : (refreshStatus sdk e n s).nginx.statusPods
            = (buildPods items).sortByName := by
          simp [refreshStatus, hdel, hl, hde, hu]
        rw [this]
        exact sortPods_sorted _
      · exact absurd hok (by simp [refreshStatus, hdel, hl, hde, hu])
    · have : (refreshStatus sdk e n s).nginx.statusPods
          = n.statusPods.sortByName := by
        simp [refreshStatus, hdel, hl, hde]
      rw [this]
      exact sortPods_sorted _

/-- Witness for C10 at a concrete store returning no pods (the refresh
succeeds without a write). -/
theorem refreshStatus_sorted_invariant_witness :
    sortedByName (refreshStatus goodStore evW nginxW clusterFull).nginx.statusPods.elems :=
  refreshStatus_sorted_invariant goodStore evW nginxW clusterFull rfl rfl
